import Mathlib

/-!
Verification of `src/tool.py`, a linear six-stage arcpy geoprocessing
pipeline (Extract Values to Points, IDW, Raster to Point, Add Field,
Update Cursor, Spatial Join).

The script is embedded shallowly:

* the control flow of the script is modelled as a trace semantics: an
  `Env` records which extension licenses are available and which external
  tool calls raise `arcpy.ExecuteError`; each stage yields the list of
  observable `Event`s it performs (license checkout/checkin, tool calls,
  logged messages, the raising of `LicenseError`) together with an
  optional process exit code (`sys.exit` executes `finally` blocks
  before terminating, which the stage functions reproduce);
* the path construction (`os.path.join` on POSIX separators together with
  `create_out_path` and the per-stage local path variables) is modelled as
  pure string functions over the script parameters;
* the Update Cursor row loop is modelled as a pure function on rows, a row
  being a `Fin 3 → ℚ` valuation of the cursor fields
  `['DEPTH', 'RASTERVALU', 'ELEVATION']`.
-/

set_option maxRecDepth 4000

namespace tool

/-- The two license extensions used by the script. -/
inductive Ext
  | Spatial
  | GeoStats
  deriving DecidableEq

/-- The six external geoprocessing operations invoked by the script, in
source order. -/
inductive Op
  | extractValuesToPoints
  | idw
  | rasterToPoint
  | addField
  | updateCursor
  | spatialJoin
  deriving DecidableEq

/-- Position of each operation in the pipeline. -/
def opIndex : Op → Nat
  | Op.extractValuesToPoints => 0
  | Op.idw => 1
  | Op.rasterToPoint => 2
  | Op.addField => 3
  | Op.updateCursor => 4
  | Op.spatialJoin => 5

/-- The messages the script passes to `arcpy.AddMessage` / `arcpy.AddError`. -/
inductive Msg
  | extractCompleted
  | spatialLicenseUnavailable
  | extractExecuteFailure
  | idwCompleted
  | geoStatsLicenseUnavailable
  | idwExecuteFailure
  | rasterToPointCompleted
  | rasterToPointExecuteFailure
  | addFieldExecuteFailure
  | updateCursorExecuteFailure
  | spatialJoinCompleted
  | spatialJoinExecuteFailure
  deriving DecidableEq

/-- The literal text of each message in the source (including the
`druing` typo of the Extract Values to Points error handler). -/
def msgText : Msg → String
  | Msg.extractCompleted => "Extract Values to Points completed successfully..."
  | Msg.spatialLicenseUnavailable => "*Spatial Analyst License is Unavailable*"
  | Msg.extractExecuteFailure => "Error druing Extract Values to Points"
  | Msg.idwCompleted => "Inverse Distance Weighted completed successfully..."
  | Msg.geoStatsLicenseUnavailable => "*Geostatistical Analyst License is Unavailable*"
  | Msg.idwExecuteFailure => "Error during Inverse Distance Weighted"
  | Msg.rasterToPointCompleted => "Raster to Point completed successfully..."
  | Msg.rasterToPointExecuteFailure => "Error during Raster to Point"
  | Msg.addFieldExecuteFailure => "Error during Add Field"
  | Msg.updateCursorExecuteFailure => "Error during Update Cursor"
  | Msg.spatialJoinCompleted => "Spatial Join completed successfully..."
  | Msg.spatialJoinExecuteFailure => "Error during Spatial Join"

/-- The `arcpy.AddError` message of each operation's
`except arcpy.ExecuteError` handler. -/
def execErrMsg : Op → Msg
  | Op.extractValuesToPoints => Msg.extractExecuteFailure
  | Op.idw => Msg.idwExecuteFailure
  | Op.rasterToPoint => Msg.rasterToPointExecuteFailure
  | Op.addField => Msg.addFieldExecuteFailure
  | Op.updateCursor => Msg.updateCursorExecuteFailure
  | Op.spatialJoin => Msg.spatialJoinExecuteFailure

/-- Observable events of a script run. -/
inductive Event
  | checkOut (ext : Ext)
  | checkIn (ext : Ext)
  | licenseError
  | toolCall (op : Op)
  | addMessage (m : Msg)
  | addError (m : Msg)
  deriving DecidableEq

/-- The external environment of one run: whether each extension license is
available, and whether each external tool call raises
`arcpy.ExecuteError`. -/
structure Env where
  spatialAvailable : Bool
  geoStatsAvailable : Bool
  extractFails : Bool
  idwFails : Bool
  rasterToPointFails : Bool
  addFieldFails : Bool
  updateCursorFails : Bool
  spatialJoinFails : Bool
  deriving DecidableEq

/-- `arcpy.CheckExtension`: returns the string `'Available'` when the
extension license is available. -/
def arcpy_CheckExtension (env : Env) : Ext → String
  | Ext.Spatial => if env.spatialAvailable then "Available" else "Unavailable"
  | Ext.GeoStats => if env.geoStatsAvailable then "Available" else "Unavailable"

/-- Whether the external tool call behind `op` raises
`arcpy.ExecuteError` in environment `env`. -/
def toolRaises (env : Env) : Op → Bool
  | Op.extractValuesToPoints => env.extractFails
  | Op.idw => env.idwFails
  | Op.rasterToPoint => env.rasterToPointFails
  | Op.addField => env.addFieldFails
  | Op.updateCursor => env.updateCursorFails
  | Op.spatialJoin => env.spatialJoinFails

/-- Whether none of the six external tool calls raises
`arcpy.ExecuteError` in `env`. -/
def noToolFailures (env : Env) : Bool :=
  !(env.extractFails || env.idwFails || env.rasterToPointFails ||
    env.addFieldFails || env.updateCursorFails || env.spatialJoinFails)

/-- Stage 1, Extract Values to Points (lines 72-101 of `src/tool.py`):
`try`: check the Spatial license out (raising `LicenseError` when
`CheckExtension` is not `'Available'`), run `arcpy.sa.ExtractValuesToPoints`
and log success; `except LicenseError` / `except arcpy.ExecuteError`: log
an error and `sys.exit(0)`; `finally`: `CheckInExtension('Spatial')`
(executed on every path, `sys.exit` included). -/
def extractValuesToPointsStage (env : Env) : List Event × Option Nat :=
  let body : List Event × Option Nat :=
    if arcpy_CheckExtension env Ext.Spatial = "Available" then
      if toolRaises env Op.extractValuesToPoints then
        ([Event.checkOut Ext.Spatial, Event.toolCall Op.extractValuesToPoints,
          Event.addError Msg.extractExecuteFailure], some 0)
      else
        ([Event.checkOut Ext.Spatial, Event.toolCall Op.extractValuesToPoints,
          Event.addMessage Msg.extractCompleted], none)
    else
      ([Event.licenseError, Event.addError Msg.spatialLicenseUnavailable], some 0)
  (body.1 ++ [Event.checkIn Ext.Spatial], body.2)

/-- Stage 2, IDW (lines 134-163 of `src/tool.py`): same try/except/finally
shape as stage 1, for the GeoStats license and `arcpy.IDW_ga`. -/
def idwStage (env : Env) : List Event × Option Nat :=
  let body : List Event × Option Nat :=
    if arcpy_CheckExtension env Ext.GeoStats = "Available" then
      if toolRaises env Op.idw then
        ([Event.checkOut Ext.GeoStats, Event.toolCall Op.idw,
          Event.addError Msg.idwExecuteFailure], some 0)
      else
        ([Event.checkOut Ext.GeoStats, Event.toolCall Op.idw,
          Event.addMessage Msg.idwCompleted], none)
    else
      ([Event.licenseError, Event.addError Msg.geoStatsLicenseUnavailable], some 0)
  (body.1 ++ [Event.checkIn Ext.GeoStats], body.2)

/-- Stage 3, Raster to Point (lines 180-190 of `src/tool.py`): `try`: run
`arcpy.RasterToPoint_conversion` and log success; `except
arcpy.ExecuteError`: log an error and `sys.exit(0)`. No license handling. -/
def rasterToPointStage (env : Env) : List Event × Option Nat :=
  if toolRaises env Op.rasterToPoint then
    ([Event.toolCall Op.rasterToPoint,
      Event.addError Msg.rasterToPointExecuteFailure], some 0)
  else
    ([Event.toolCall Op.rasterToPoint,
      Event.addMessage Msg.rasterToPointCompleted], none)

/-- Stage 4, Add Field (lines 210-221 of `src/tool.py`): `try`: run
`arcpy.AddField_management` (no success message in the source); `except
arcpy.ExecuteError`: log an error and `sys.exit(0)`. -/
def addFieldStage (env : Env) : List Event × Option Nat :=
  if toolRaises env Op.addField then
    ([Event.toolCall Op.addField,
      Event.addError Msg.addFieldExecuteFailure], some 0)
  else
    ([Event.toolCall Op.addField], none)

/-- Stage 5, Update Cursor (lines 235-249 of `src/tool.py`): `try`: run the
`arcpy.da.UpdateCursor` row loop (no success message in the source);
`except arcpy.ExecuteError`: log an error and `sys.exit(0)`. -/
def updateCursorStage (env : Env) : List Event × Option Nat :=
  if toolRaises env Op.updateCursor then
    ([Event.toolCall Op.updateCursor,
      Event.addError Msg.updateCursorExecuteFailure], some 0)
  else
    ([Event.toolCall Op.updateCursor], none)

/-- Stage 6, Spatial Join (lines 286-309 of `src/tool.py`): `try`: run
`arcpy.SpatialJoin_analysis` with the field mapping and log success;
`except arcpy.ExecuteError`: log an error and `sys.exit(0)`. -/
def spatialJoinStage (env : Env) : List Event × Option Nat :=
  if toolRaises env Op.spatialJoin then
    ([Event.toolCall Op.spatialJoin,
      Event.addError Msg.spatialJoinExecuteFailure], some 0)
  else
    ([Event.toolCall Op.spatialJoin,
      Event.addMessage Msg.spatialJoinCompleted], none)

/-- Sequencing of stages at module level: a `sys.exit` in one stage stops
the script, so later stages contribute nothing to the trace. -/
def stageSeq (a b : List Event × Option Nat) : List Event × Option Nat :=
  match a.2 with
  | some c => (a.1, some c)
  | none => (a.1 ++ b.1, b.2)

/-- The whole script: the six stages in source order. The second component
is `some c` when the run was terminated by `sys.exit(c)` and `none` when
it ran to completion. -/
def runScript (env : Env) : List Event × Option Nat :=
  stageSeq (extractValuesToPointsStage env)
    (stageSeq (idwStage env)
      (stageSeq (rasterToPointStage env)
        (stageSeq (addFieldStage env)
          (stageSeq (updateCursorStage env) (spatialJoinStage env)))))

/-- The external tool calls of a trace, in order. -/
def toolCalls (t : List Event) : List Op :=
  t.filterMap fun e =>
    match e with
    | Event.toolCall op => some op
    | _ => none

/-- The license checkout/checkin events of a trace, in order. -/
def licenseEvents (t : List Event) : List Event :=
  t.filter fun e =>
    match e with
    | Event.checkOut _ => true
    | Event.checkIn _ => true
    | _ => false

/-- The `arcpy.AddError` events of a trace, in order. -/
def addErrors (t : List Event) : List Event :=
  t.filter fun e =>
    match e with
    | Event.addError _ => true
    | _ => false

/-- The script parameters read via `arcpy.GetParameterAsText(0..5)`
(lines 42-47 of `src/tool.py`). -/
structure Params where
  out_gdb : String
  pad_num : String
  coal_seam : String
  elev_pts : String
  in_dem : String
  pillars : String

/-- Whether a path string begins with the separator `/` (the
`b.startswith(sep)` test of `posixpath.join`), computed on the character
list of the string. -/
def startsWithSlash (b : String) : Bool := "/".data.isPrefixOf b.data

/-- Whether a path string ends with the separator `/` (the
`path.endswith(sep)` test of `posixpath.join`), computed on the character
list of the string. -/
def endsWithSlash (a : String) : Bool := "/".data.isSuffixOf a.data

/-- `os.path.join` on two components with POSIX separators: an absolute
second component replaces the first, otherwise the components are joined,
inserting `/` unless the first is empty or already ends in `/`. -/
def os_path_join (a b : String) : String :=
  if startsWithSlash b then b
  else if a = "" || endsWithSlash a then a ++ b
  else a ++ "/" ++ b

/-- `create_out_path` (lines 34-38 of `src/tool.py`): joins the output
geodatabase with `pad_num + '_' + coal_seam + '_' + file`. -/
def create_out_path (p : Params) (file : String) : String :=
  os_path_join p.out_gdb (p.pad_num ++ "_" ++ p.coal_seam ++ "_" ++ file)

/-- `evp_out_pt_features` (line 68): output of Extract Values to Points. -/
def evp_out_pt_features (p : Params) : String := create_out_path p "Extract"

/-- `idw_in_pt_features` (line 112): point input of IDW. -/
def idw_in_pt_features (p : Params) : String := create_out_path p "Extract"

/-- `idw_out_raster` (line 115): raster output of IDW. -/
def idw_out_raster (p : Params) : String := create_out_path p "IDWElev"

/-- `rtp_in_raster` (line 176): raster input of Raster to Point. -/
def rtp_in_raster (p : Params) : String := create_out_path p "IDWElev"

/-- `rtp_out_pt` (line 177): point output of Raster to Point. -/
def rtp_out_pt (p : Params) : String := create_out_path p "IDWElev_Points"

/-- `af_in_features` (line 201): target dataset of Add Field. -/
def af_in_features (p : Params) : String := create_out_path p "Extract.shp"

/-- `uc_fc` (line 232): target feature class of the Update Cursor. -/
def uc_fc (p : Params) : String := create_out_path p "Extract"

/-- `sj_join_features` (line 261): join features of the Spatial Join. -/
def sj_join_features (p : Params) : String := create_out_path p "IDWElev_Points"

/-- `uc_fields` (line 233): the cursor field list; index 0 is `DEPTH`,
index 1 is `RASTERVALU`, index 2 is `ELEVATION`. -/
def uc_fields : List String := ["DEPTH", "RASTERVALU", "ELEVATION"]

/-- The body of the Update Cursor loop (lines 239-243):
`row[0] = row[1] - row[2]`, then `cursor.updateRow(row)`. A row is a
valuation of `uc_fields` by index. -/
def updateRow (row : Fin 3 → ℚ) : Fin 3 → ℚ :=
  fun i => if i = 0 then row 1 - row 2 else row i

/-- The whole Update Cursor stage on the rows of the target feature class:
every row is rewritten by `updateRow`. -/
def updateCursorRows (rows : List (Fin 3 → ℚ)) : List (Fin 3 → ℚ) :=
  rows.map updateRow

/-- The concrete parameter values of the development inputs commented at
lines 50-55 of `src/tool.py` (used as a concrete test point). -/
def devParams : Params :=
  { out_gdb := "C:/Users/Brandon/Desktop/imaps/project_data/CPA_AOI/Test_Outputs.gdb"
    pad_num := "Pad15A"
    coal_seam := "UF"
    elev_pts := "C:/Users/Brandon/Desktop/imaps/project_data/CPA_AOI/ConsolGasWellInfo.gdb/Pad15A_Contours"
    in_dem := "C:/Users/Brandon/Desktop/imaps/project_data/CPA_AOI/ConsolGasWellInfo.gdb/Pad15A_DEM1000ft"
    pillars := "C:/Users/Brandon/Desktop/imaps/project_data/CPA_AOI/ConsolGasWellInfo.gdb/Pad15A_Pillars" }

/-- An environment in which both licenses are available and no tool
fails. -/
def envAllGood : Env :=
  { spatialAvailable := true, geoStatsAvailable := true,
    extractFails := false, idwFails := false, rasterToPointFails := false,
    addFieldFails := false, updateCursorFails := false,
    spatialJoinFails := false }

/-- An environment in which only the Spatial license is unavailable. -/
def envNoSpatial : Env :=
  { envAllGood with spatialAvailable := false }

/-- An environment in which only the GeoStats license is unavailable. -/
def envNoGeoStats : Env :=
  { envAllGood with geoStatsAvailable := false }

/-- An environment in which only the IDW tool call fails. -/
def envIdwFails : Env :=
  { envAllGood with idwFails := true }

/-- C1: for every row processed by the Update Cursor stage, the value
written into the DEPTH field (index 0 of `uc_fields`) equals the surface
elevation RASTERVALU (index 1) minus the coal-seam elevation ELEVATION
(index 2). -/
theorem depth_eq_surface_minus_seam :
    uc_fields = ["DEPTH", "RASTERVALU", "ELEVATION"] ∧
    ∀ (rows : List (Fin 3 → ℚ)) (r : Fin 3 → ℚ),
      r ∈ updateCursorRows rows → r 0 = r 1 - r 2 := by
  refine ⟨rfl, ?_⟩
  intro rows r hr
  rcases List.mem_map.mp hr with ⟨s, hs, rfl⟩
  simp [updateRow]

/-- Witness for C1: the fully processed concrete row with surface
elevation 1200 and coal-seam elevation 800 satisfies the depth formula. -/
theorem depth_eq_surface_minus_seam_witness :
    (updateRow ![0, 1200, 800]) 0 =
      (updateRow ![0, 1200, 800]) 1 - (updateRow ![0, 1200, 800]) 2 :=
  depth_eq_surface_minus_seam.2 [![0, 1200, 800]] (updateRow ![0, 1200, 800])
    (by simp [updateCursorRows])

/-- C2: in each of the two license-gated stages, the `finally`
`CheckInExtension` call is the last event of the stage on every exit path
(normal completion, `LicenseError`, or `arcpy.ExecuteError` followed by
`sys.exit`), and every run of the whole script performs the Spatial
check-in, and the GeoStats check-in whenever the IDW stage is entered. -/
theorem license_checkin_on_every_exit_path :
    ∀ env : Env,
      (extractValuesToPointsStage env).1.getLast? = some (Event.checkIn Ext.Spatial) ∧
      (idwStage env).1.getLast? = some (Event.checkIn Ext.GeoStats) ∧
      Event.checkIn Ext.Spatial ∈ (runScript env).1 ∧
      ((extractValuesToPointsStage env).2 = none →
        Event.checkIn Ext.GeoStats ∈ (runScript env).1) := by
  rintro ⟨a, b, c, d, e, f, g, h⟩
  revert a b c d e f g h
  decide

/-- Witness for C2: in the all-good environment the first stage completes
normally, so the GeoStats check-in occurs in the run trace. -/
theorem license_checkin_on_every_exit_path_witness :
    Event.checkIn Ext.GeoStats ∈ (runScript envAllGood).1 :=
  (license_checkin_on_every_exit_path envAllGood).2.2.2 (by decide)

/-- C3: whenever the external tool call of a stage raises
`arcpy.ExecuteError` and that stage was reached (its tool call is in the
trace), the run exits via `sys.exit(0)`, the stage's error message is
logged, and no later operation's tool call appears in the trace. -/
theorem execute_error_halts_run :
    ∀ (env : Env) (o : Op),
      toolRaises env o = true →
      Event.toolCall o ∈ (runScript env).1 →
      (runScript env).2 = some 0 ∧
      Event.addError (execErrMsg o) ∈ (runScript env).1 ∧
      (toolCalls (runScript env).1).all
        (fun o2 => decide (opIndex o2 ≤ opIndex o)) = true := by
  rintro ⟨a, b, c, d, e, f, g, h⟩ o
  revert a b c d e f g h
  cases o <;> decide

/-- Witness for C3: when only the IDW tool call fails, the run exits with
code 0, logs the IDW error message, and performs no tool call after IDW. -/
theorem execute_error_halts_run_witness :
    (runScript envIdwFails).2 = some 0 ∧
    Event.addError (execErrMsg Op.idw) ∈ (runScript envIdwFails).1 ∧
    (toolCalls (runScript envIdwFails).1).all
      (fun o2 => decide (opIndex o2 ≤ opIndex Op.idw)) = true :=
  execute_error_halts_run envIdwFails Op.idw (by decide) (by decide)

/-- C4: `LicenseError` is raised in a license-gated stage exactly when
`arcpy.CheckExtension` does not return `'Available'` for that stage's
extension, in which case the wrapped geoprocessing tool is never invoked;
the four later stages never raise it; and any logged error comes from a
raised `LicenseError` or from a failing external tool call. -/
theorem license_error_iff_unavailable :
    ∀ env : Env,
      ((Event.licenseError ∈ (extractValuesToPointsStage env).1) ↔
        arcpy_CheckExtension env Ext.Spatial ≠ "Available") ∧
      (arcpy_CheckExtension env Ext.Spatial ≠ "Available" →
        Event.toolCall Op.extractValuesToPoints ∉ (extractValuesToPointsStage env).1) ∧
      ((Event.licenseError ∈ (idwStage env).1) ↔
        arcpy_CheckExtension env Ext.GeoStats ≠ "Available") ∧
      (arcpy_CheckExtension env Ext.GeoStats ≠ "Available" →
        Event.toolCall Op.idw ∉ (idwStage env).1) ∧
      Event.licenseError ∉ (rasterToPointStage env).1 ∧
      Event.licenseError ∉ (addFieldStage env).1 ∧
      Event.licenseError ∉ (updateCursorStage env).1 ∧
      Event.licenseError ∉ (spatialJoinStage env).1 ∧
      (addErrors (runScript env).1 ≠ [] →
        Event.licenseError ∈ (runScript env).1 ∨ noToolFailures env = false) := by
  rintro ⟨a, b, c, d, e, f, g, h⟩
  revert a b c d e f g h
  decide

/-- Witness for C4: with the Spatial license unavailable, the first stage
raises `LicenseError` and never invokes Extract Values to Points. -/
theorem license_error_iff_unavailable_witness :
    Event.licenseError ∈ (extractValuesToPointsStage envNoSpatial).1 ∧
    Event.toolCall Op.extractValuesToPoints ∉ (extractValuesToPointsStage envNoSpatial).1 :=
  ⟨(license_error_iff_unavailable envNoSpatial).1.mpr (by decide),
   (license_error_iff_unavailable envNoSpatial).2.1 (by decide)⟩

/-- C5 (counterexample evidence): at the development input values, the
IDW input, the Raster to Point input, the Update Cursor target and the
Spatial Join join-features all equal the output of the producing stage,
but the Add Field target `create_out_path('Extract.shp')` differs from
the Extract Values to Points output `create_out_path('Extract')`. -/
theorem add_field_target_differs_from_extract_output :
    idw_in_pt_features devParams = evp_out_pt_features devParams ∧
    rtp_in_raster devParams = idw_out_raster devParams ∧
    uc_fc devParams = evp_out_pt_features devParams ∧
    sj_join_features devParams = rtp_out_pt devParams ∧
    af_in_features devParams ≠ evp_out_pt_features devParams := by
  refine ⟨rfl, rfl, rfl, rfl, ?_⟩
  decide

/-- C6: `create_out_path(f)` equals `os.path.join` of the output
geodatabase with the underscore-separated concatenation of pad number,
coal-seam abbreviation and the stage-specific name, and two calls with
the same arguments yield the same path. -/
theorem create_out_path_spec :
    ∀ (p : Params) (f : String),
      create_out_path p f =
        os_path_join p.out_gdb (p.pad_num ++ "_" ++ p.coal_seam ++ "_" ++ f) ∧
      create_out_path p f = create_out_path p f :=
  fun _ _ => ⟨rfl, rfl⟩

/-- C7: on a run where both licenses are available and no tool call
fails, the script performs exactly the six geoprocessing operations in
the fixed source order, none skipped, repeated or reordered. -/
theorem six_operations_in_fixed_order :
    ∀ env : Env,
      env.spatialAvailable = true →
      env.geoStatsAvailable = true →
      noToolFailures env = true →
      toolCalls (runScript env).1 =
        [Op.extractValuesToPoints, Op.idw, Op.rasterToPoint,
         Op.addField, Op.updateCursor, Op.spatialJoin] := by
  rintro ⟨a, b, c, d, e, f, g, h⟩
  revert a b c d e f g h
  decide

/-- Witness for C7: the all-good environment yields exactly the six
operations in order. -/
theorem six_operations_in_fixed_order_witness :
    toolCalls (runScript envAllGood).1 =
      [Op.extractValuesToPoints, Op.idw, Op.rasterToPoint,
       Op.addField, Op.updateCursor, Op.spatialJoin] :=
  six_operations_in_fixed_order envAllGood (by decide) (by decide) (by decide)

/-- C8: the four stages after IDW perform no license checkout or
check-in on any of their paths, success or failure. -/
theorem later_stages_touch_no_license :
    ∀ env : Env,
      licenseEvents (rasterToPointStage env).1 = [] ∧
      licenseEvents (addFieldStage env).1 = [] ∧
      licenseEvents (updateCursorStage env).1 = [] ∧
      licenseEvents (spatialJoinStage env).1 = [] := by
  rintro ⟨a, b, c, d, e, f, g, h⟩
  revert a b c d e f g h
  decide

/-- C9: every run either completes or terminates via `sys.exit(0)`, and
every run that logged an error terminates with exit status 0, so a
caller cannot distinguish failure from success by exit code. -/
theorem exit_code_always_zero :
    ∀ env : Env,
      ((runScript env).2 = none ∨ (runScript env).2 = some 0) ∧
      (addErrors (runScript env).1 ≠ [] → (runScript env).2 = some 0) := by
  rintro ⟨a, b, c, d, e, f, g, h⟩
  revert a b c d e f g h
  decide

/-- Witness for C9: with the Spatial license unavailable the run logs an
error and exits with status 0. -/
theorem exit_code_always_zero_witness :
    (runScript envNoSpatial).2 = some 0 :=
  (exit_code_always_zero envNoSpatial).2 (by decide)

/-- C10: on each license-gated stage's `LicenseError` path, the
`finally` block still executes `CheckInExtension` although
`CheckOutExtension` was never called for that extension. -/
theorem checkin_without_checkout_on_license_error :
    ∀ env : Env,
      (arcpy_CheckExtension env Ext.Spatial ≠ "Available" →
        Event.checkIn Ext.Spatial ∈ (extractValuesToPointsStage env).1 ∧
        Event.checkOut Ext.Spatial ∉ (extractValuesToPointsStage env).1) ∧
      (arcpy_CheckExtension env Ext.GeoStats ≠ "Available" →
        Event.checkIn Ext.GeoStats ∈ (idwStage env).1 ∧
        Event.checkOut Ext.GeoStats ∉ (idwStage env).1) := by
  rintro ⟨a, b, c, d, e, f, g, h⟩
  revert a b c d e f g h
  decide

/-- Witness for C10: with the Spatial (resp. GeoStats) license
unavailable, the stage checks the extension in without having checked it
out. -/
theorem checkin_without_checkout_on_license_error_witness :
    (Event.checkIn Ext.Spatial ∈ (extractValuesToPointsStage envNoSpatial).1 ∧
     Event.checkOut Ext.Spatial ∉ (extractValuesToPointsStage envNoSpatial).1) ∧
    (Event.checkIn Ext.GeoStats ∈ (idwStage envNoGeoStats).1 ∧
     Event.checkOut Ext.GeoStats ∉ (idwStage envNoGeoStats).1) :=
  ⟨(checkin_without_checkout_on_license_error envNoSpatial).1 (by decide),
   (checkin_without_checkout_on_license_error envNoGeoStats).2 (by decide)⟩

end tool
